import Mathlib

/-!
Verification of the core of the termux-Ai-Assistant repository.

Two components carry the meaningful logic and are embedded here:

* `CodeExecutor.execute_code` (code_executor.py): writes untrusted code to a
  scratch file in a workspace directory, runs it as a child process with a
  wall-clock timeout via subprocess.run, and returns a structured result
  dictionary with keys stdout, stderr and returncode.  The whole body sits in
  one try block with two handlers: `except subprocess.TimeoutExpired` and
  `except Exception`.

* `AIClient.generate_code` / `AIClient._extract_code` (client.py): wraps a
  user prompt in a fixed instructional template, submits it to the backend
  exactly once, and returns the response text stripped of leading and
  trailing whitespace; any exception inside the body is re-raised as a single
  wrapped exception with the text "Code generation failed: " followed by the
  stringified fault.

The OS and library effects (scratch-file creation, the child process, file
deletion, the network backend) are modelled by an explicit oracle record that
fixes the outcome of each effectful step; the control flow of the Python
functions over those outcomes is translated verbatim.  Machine exit statuses
are Int because subprocess reports a returncode of -N for a child terminated
by signal N (POSIX semantics), so negative values are reachable.
-/

namespace TermuxAI

/-- Mirror of the dictionary returned by CodeExecutor.execute_code:
keys stdout, stderr and returncode. -/
structure ExecResult where
  stdout : String
  stderr : String
  returncode : Int
deriving DecidableEq

/-- Mirror of the subprocess.CompletedProcess value produced when
subprocess.run returns without raising: captured text stdout and stderr and
the returncode.  The returncode is the exit code of the child when it exits
normally (then it lies in 0..255), and -N when the child was terminated by
signal N, so it can be negative. -/
structure CompletedProcess where
  stdout : String
  stderr : String
  returncode : Int
deriving DecidableEq

/-- Outcome of the subprocess.run call: the child completed (possibly killed
by a signal), the wall-clock timeout expired (subprocess.run kills the child
and raises subprocess.TimeoutExpired), or the launch itself raised some other
exception, recorded by its stringified message. -/
inductive RunOutcome where
  | completed (p : CompletedProcess)
  | timedOut
  | raised (msg : String)
deriving DecidableEq

/-- The Python exceptions distinguished by the two handlers of
execute_code: subprocess.TimeoutExpired, and every other Exception
represented by its str(e) message. -/
inductive PyExc where
  | timeoutExpired
  | exc (msg : String)
deriving DecidableEq

/-- Oracle fixing the outcome of each effectful step of one
execute_code call: creation of the named scratch file (none = created),
writing and flushing the code into it (none = written), the
subprocess.run call, and the os.unlink deletion (none = deleted). -/
structure ExecEnv where
  createExc : Option String
  writeExc : Option String
  runOutcome : RunOutcome
  unlinkExc : Option String
deriving DecidableEq

/-- The try block of CodeExecutor.execute_code, step by step: create the
scratch file with tempfile.NamedTemporaryFile(delete=False), write and flush
the code, run [sys.executable, temp_file.name] with capture_output and the
timeout, then os.unlink the scratch file, and only then build the result
dictionary from the completed process.  Any step raising escapes to the
handlers as a PyExc. -/
def executeCodeTry (env : ExecEnv) : Except PyExc ExecResult :=
  match env.createExc with
  | some m => .error (.exc m)
  | none =>
    match env.writeExc with
    | some m => .error (.exc m)
    | none =>
      match env.runOutcome with
      | .timedOut => .error .timeoutExpired
      | .raised m => .error (.exc m)
      | .completed p =>
        match env.unlinkExc with
        | some m => .error (.exc m)
        | none => .ok ⟨p.stdout, p.stderr, p.returncode⟩

/-- CodeExecutor.execute_code(code, timeout): the try block wrapped in its
two handlers.  except subprocess.TimeoutExpired returns
(stdout = "", stderr = "Execution timed out", returncode = -1);
except Exception as e returns (stdout = "", stderr = str(e),
returncode = -1).  The code and timeout arguments do not influence the
branching once the step outcomes are fixed by the oracle, exactly as in the
source, where they only parameterize the effects. -/
def execute_code (code : String) (timeout : Nat) (env : ExecEnv) : ExecResult :=
  match code, timeout, executeCodeTry env with
  | _, _, .ok r => r
  | _, _, .error .timeoutExpired => ⟨"", "Execution timed out", -1⟩
  | _, _, .error (.exc m) => ⟨"", m, -1⟩

/-- execute_code viewed at the caller boundary: an Except value that is
.error only if some exception escapes both handlers.  Since the second
handler is except Exception, every PyExc is converted into an ordinary
return value. -/
def execute_code_checked (code : String) (timeout : Nat) (env : ExecEnv) :
    Except PyExc ExecResult :=
  match code, timeout, executeCodeTry env with
  | _, _, .ok r => .ok r
  | _, _, .error .timeoutExpired => .ok ⟨"", "Execution timed out", -1⟩
  | _, _, .error (.exc m) => .ok ⟨"", m, -1⟩

/-- Whether the scratch file created by this execute_code call still exists
in the workspace when the call returns, read off the same control flow:
the file exists once NamedTemporaryFile creation succeeds, and the single
os.unlink sits inside the try block after subprocess.run, so it executes
only on the completed-process path; a failing unlink leaves the file in
place (the model assumes no external agent touches the scratch file). -/
def scratchFileExistsAfter (env : ExecEnv) : Bool :=
  match env.createExc with
  | some _ => false
  | none =>
    match env.writeExc with
    | some _ => true
    | none =>
      match env.runOutcome with
      | .timedOut => true
      | .raised _ => true
      | .completed _ =>
        match env.unlinkExc with
        | some _ => true
        | none => false

/-- Abstraction of the filesystem state relevant to the workspace: whether
the workspace directory currently exists. -/
structure FS where
  workspaceExists : Bool
deriving DecidableEq

/-- CodeExecutor._ensure_workspace: os.makedirs(self.workspace_dir,
exist_ok=True), which creates the directory recursively and succeeds
whether or not it already exists. -/
def ensure_workspace (fs : FS) : FS :=
  match fs with
  | _ => { workspaceExists := true }

/-- The constructor CodeExecutor.__init__: records the workspace path and
calls _ensure_workspace once.  This is the only place in code_executor.py
where _ensure_workspace is invoked. -/
def CodeExecutor_mk (fs : FS) : FS := ensure_workspace fs

/-- execute_code together with its effect on the workspace directory.  The
body of execute_code never calls _ensure_workspace: if the workspace
directory is missing when the call starts, tempfile.NamedTemporaryFile with
dir pointing at it raises FileNotFoundError, which the except Exception
handler converts into an error result; the directory is not created.  In
either case the existence of the workspace directory is unchanged by the
call. -/
def execute_code_fs (code : String) (timeout : Nat) (fs : FS) (env : ExecEnv) :
    ExecResult × FS :=
  if fs.workspaceExists then
    (execute_code code timeout env, fs)
  else
    (execute_code code timeout
      { env with createExc := some "[Errno 2] No such file or directory" }, fs)

/-- Outcome of the single model.predict call inside
AIClient.generate_code, as seen through response.text: either a response
text, or an exception with its stringified message (covering
authentication faults surfacing at call time, network faults, and SDK
errors on malformed responses). -/
inductive PredictOutcome where
  | ok (text : String)
  | raise (msg : String)
deriving DecidableEq

/-- The fixed instructional template of AIClient.generate_code wrapped
around the user prompt (the Python triple-quoted f-string, with its
indentation, verbatim). -/
def format_prompt (prompt : String) : String :=
  "\n            Generate Python code for the following request:\n            "
    ++ prompt
    ++ "\n            \n            Consider that this code will run in Termux on Android.\n            Only include the code implementation, no explanations.\n            "

/-- AIClient._extract_code: return response_text.strip(), i.e. the response
with leading and trailing whitespace removed and nothing else changed
(String.trim models str.strip over the common whitespace characters). -/
def extract_code (response_text : String) : String :=
  response_text.trim

/-- AIClient.generate_code(prompt): inside one try block, construct the
model handle (modelInitExc = none when aiplatform.Model construction
succeeds), call model.predict exactly once on the templated prompt, and
return _extract_code of the response text; except Exception as e re-raises
a single wrapped exception "Code generation failed: " ++ str(e).  The
result is an Except value: .error models the raised wrapper, .ok the
returned GeneratedCode text. -/
def generate_code (prompt : String) (modelInitExc : Option String)
    (predict : String → PredictOutcome) : Except String String :=
  match modelInitExc with
  | some m => .error ("Code generation failed: " ++ m)
  | none =>
    match predict (format_prompt prompt) with
    | .raise m => .error ("Code generation failed: " ++ m)
    | .ok text => .ok (extract_code text)

/-- generate_code consults the backend exactly once, on the templated
prompt: its result depends only on the value of predict at
format_prompt prompt. -/
theorem generate_code_single_call (prompt : String) (mi : Option String)
    (p₁ p₂ : String → PredictOutcome)
    (h : p₁ (format_prompt prompt) = p₂ (format_prompt prompt)) :
    generate_code prompt mi p₁ = generate_code prompt mi p₂ := by
  unfold generate_code
  rw [h]

/-- Claim C1 (code_bug evidence): when the child times out the scratch file
is still present in the workspace after execute_code returns, because
os.unlink sits inside the try block after subprocess.run and the
TimeoutExpired handler skips it; on the normal-completion path with a
successful unlink the file is gone.  This contradicts the cleanup-on-every-
path invariant stated by the spec. -/
theorem scratch_file_leaks_on_timeout :
    scratchFileExistsAfter ⟨none, none, RunOutcome.timedOut, none⟩ = true ∧
    scratchFileExistsAfter ⟨none, none, RunOutcome.raised "spawn failed", none⟩ = true ∧
    scratchFileExistsAfter
      ⟨none, none, RunOutcome.completed ⟨"", "", 0⟩, none⟩ = false := by
  exact ⟨rfl, rfl, rfl⟩

/-- Claim C2: execute_code never lets an exception escape to its caller:
for every oracle outcome the checked view of the call is .ok of the result
value, every failure mode having been converted into an ExecResult by the
TimeoutExpired and Exception handlers. -/
theorem execute_code_total (code : String) (timeout : Nat) (env : ExecEnv) :
    execute_code_checked code timeout env =
      Except.ok (execute_code code timeout env) := by
  unfold execute_code_checked execute_code
  cases h : executeCodeTry env with
  | ok r => rfl
  | error e => cases e <;> rfl

/-- Claim C3: whenever the scratch file was created and written and the
subprocess.run call ends in TimeoutExpired, execute_code returns exactly
the record with empty stdout, stderr "Execution timed out" and returncode
-1, independently of the deletion oracle (os.unlink is never reached on
this path). -/
theorem execute_code_timeout_result (code : String) (timeout : Nat)
    (env : ExecEnv) (hc : env.createExc = none) (hw : env.writeExc = none)
    (hr : env.runOutcome = RunOutcome.timedOut) :
    execute_code code timeout env = ⟨"", "Execution timed out", -1⟩ := by
  unfold execute_code executeCodeTry
  rw [hc, hw, hr]

/-- Witness for C3 at a concrete call: code that sleeps past a one-second
timeout. -/
theorem execute_code_timeout_result_witness :
    execute_code "import time\ntime.sleep(60)" 1
      ⟨none, none, RunOutcome.timedOut, none⟩ =
      ⟨"", "Execution timed out", -1⟩ :=
  execute_code_timeout_result "import time\ntime.sleep(60)" 1
    ⟨none, none, RunOutcome.timedOut, none⟩ rfl rfl rfl

/-- Claim C4 counterexample: a child terminated by signal 1 is reported by
subprocess with returncode -1, and execute_code passes that value through,
so a call with no runner-level failure returns returncode -1 and is
indistinguishable by returncode from a timed-out call; testing
exitStatus == -1 therefore does not identify runner-level failure. -/
theorem returncode_collision_with_signal_kill :
    (execute_code "x = 1" 30
      ⟨none, none, RunOutcome.completed ⟨"", "", -1⟩, none⟩).returncode = -1 ∧
    (execute_code "x = 1" 30
      ⟨none, none, RunOutcome.completed ⟨"", "", -1⟩, none⟩).returncode =
    (execute_code "while True: pass" 1
      ⟨none, none, RunOutcome.timedOut, none⟩).returncode := by
  exact ⟨rfl, rfl⟩

/-- Claim C4 as amended: the returned exitStatus differs from -1 exactly
when the call succeeded end to end (scratch file created and written, child
completed, unlink succeeded) with a child returncode other than -1: every
runner-level failure yields -1, a normally exiting child yields its own
exit code (nonnegative, hence never -1), but a child killed by signal 1 is
reported as -1 as well, so -1 is not reserved to runner-level failure. -/
theorem execute_code_returncode_taxonomy (code : String) (timeout : Nat)
    (env : ExecEnv) :
    (execute_code code timeout env).returncode ≠ -1 ↔
      ∃ p, env.createExc = none ∧ env.writeExc = none ∧
        env.runOutcome = RunOutcome.completed p ∧ env.unlinkExc = none ∧
        p.returncode ≠ -1 := by
  obtain ⟨c, w, r, u⟩ := env
  cases c <;> cases w <;> cases r <;> cases u <;>
    simp [execute_code, executeCodeTry]

/-- Claim C5 counterexample: a run whose child completes within the timeout
(printing 7 and exiting 0) but whose scratch-file deletion raises is not
reported with the captured output and exit code; the deletion error result
replaces it. -/
theorem completed_child_output_discarded_on_unlink_error :
    execute_code "print(7)" 30
      ⟨none, none, RunOutcome.completed ⟨"7\n", "", 0⟩,
        some "PermissionError: scratch file"⟩ =
      ⟨"", "PermissionError: scratch file", -1⟩ ∧
    (execute_code "print(7)" 30
      ⟨none, none, RunOutcome.completed ⟨"7\n", "", 0⟩,
        some "PermissionError: scratch file"⟩).stdout ≠ "7\n" := by
  exact ⟨rfl, by decide⟩

/-- Claim C5 as amended: whenever the scratch file is created and written,
the child completes within the timeout, and the scratch-file deletion
succeeds, execute_code returns exactly the captured stdout, the captured
stderr and the returncode of the child. -/
theorem execute_code_normal_completion (code : String) (timeout : Nat)
    (env : ExecEnv) (p : CompletedProcess) (hc : env.createExc = none)
    (hw : env.writeExc = none) (hr : env.runOutcome = RunOutcome.completed p)
    (hu : env.unlinkExc = none) :
    execute_code code timeout env = ⟨p.stdout, p.stderr, p.returncode⟩ := by
  unfold execute_code executeCodeTry
  rw [hc, hw, hr, hu]

/-- Witness for amended C5 at a concrete call: code printing a fixed string
and exiting 0 yields exactly that string on stdout and exitStatus 0. -/
theorem execute_code_normal_completion_witness :
    execute_code "print(\x22hello\x22)" 30
      ⟨none, none, RunOutcome.completed ⟨"hello\n", "", 0⟩, none⟩ =
      ⟨"hello\n", "", 0⟩ :=
  execute_code_normal_completion "print(\x22hello\x22)" 30
    ⟨none, none, RunOutcome.completed ⟨"hello\n", "", 0⟩, none⟩
    ⟨"hello\n", "", 0⟩ rfl rfl rfl rfl

/-- Claim C6 counterexample: a call issued while the workspace directory is
missing does not create it — the call fails with returncode -1 (the
FileNotFoundError from scratch-file creation is swallowed by the Exception
handler) and the workspace still does not exist afterwards, so execute_code
performs no ensure step of its own. -/
theorem execute_code_skips_workspace_ensure :
    (execute_code_fs "print(1)" 30 ⟨false⟩
      ⟨none, none, RunOutcome.completed ⟨"1\n", "", 0⟩, none⟩).2.workspaceExists
      = false ∧
    (execute_code_fs "print(1)" 30 ⟨false⟩
      ⟨none, none, RunOutcome.completed ⟨"1\n", "", 0⟩, none⟩).1.returncode
      = -1 := by
  exact ⟨rfl, rfl⟩

/-- Claim C6 as amended: the workspace-ensure step runs once, in the
CodeExecutor constructor, before any scratch file is written: it creates
the directory if missing, it is idempotent, and execute_code itself leaves
the existence of the workspace directory unchanged. -/
theorem workspace_ensured_at_construction (fs : FS) (code : String)
    (timeout : Nat) (env : ExecEnv) :
    (CodeExecutor_mk fs).workspaceExists = true ∧
    ensure_workspace (ensure_workspace fs) = ensure_workspace fs ∧
    (execute_code_fs code timeout fs env).2 = fs := by
  refine ⟨rfl, rfl, ?_⟩
  unfold execute_code_fs
  split <;> rfl

/-- Claim C7: on any backend-side fault — model-handle construction failing
or the single predict call raising — generate_code produces exactly one
error, the wrapper "Code generation failed: " around the stringified fault,
and never returns a GeneratedCode value. -/
theorem generate_code_single_error (prompt : String) (mi : Option String)
    (predict : String → PredictOutcome)
    (hfail : (∃ m, mi = some m) ∨
      (∃ m, predict (format_prompt prompt) = PredictOutcome.raise m)) :
    (∃ m, generate_code prompt mi predict =
      Except.error ("Code generation failed: " ++ m)) ∧
    ∀ g, generate_code prompt mi predict ≠ Except.ok g := by
  unfold generate_code
  cases mi with
  | some m => exact ⟨⟨m, rfl⟩, fun g h => by simp at h⟩
  | none =>
    rcases hfail with ⟨m, hm⟩ | ⟨m, hm⟩
    · exact absurd hm (by simp)
    · rw [hm]
      exact ⟨⟨m, rfl⟩, fun g h => by simp at h⟩

/-- Witness for C7 at a concrete call: the backend raising a credentials
fault yields the single wrapped error and no GeneratedCode. -/
theorem generate_code_single_error_witness :
    (∃ m, generate_code "list files" none
      (fun _ => PredictOutcome.raise "DefaultCredentialsError") =
      Except.error ("Code generation failed: " ++ m)) ∧
    ∀ g, generate_code "list files" none
      (fun _ => PredictOutcome.raise "DefaultCredentialsError") ≠
      Except.ok g :=
  generate_code_single_error "list files" none
    (fun _ => PredictOutcome.raise "DefaultCredentialsError")
    (Or.inr ⟨"DefaultCredentialsError", rfl⟩)

/-- Claim C8: on a successful backend response, generate_code returns the
raw response text with only leading and trailing whitespace trimmed —
the success path is _extract_code, which is exactly String.trim, with no
fencing-stripping or other parsing applied. -/
theorem generate_code_returns_trimmed (prompt text : String) :
    generate_code prompt none (fun _ => PredictOutcome.ok text) =
      Except.ok text.trim := rfl

/-- Claim C10: when the child completes within the timeout but os.unlink
raises, the Exception handler discards the captured output and exit code
and execute_code reports the stringified deletion error as a runner-level
failure: empty stdout, stderr = the deletion message, returncode -1. -/
theorem unlink_error_reported_as_runner_failure (code : String)
    (timeout : Nat) (env : ExecEnv) (p : CompletedProcess) (m : String)
    (hc : env.createExc = none) (hw : env.writeExc = none)
    (hr : env.runOutcome = RunOutcome.completed p)
    (hu : env.unlinkExc = some m) :
    execute_code code timeout env = ⟨"", m, -1⟩ := by
  unfold execute_code executeCodeTry
  rw [hc, hw, hr, hu]

/-- Witness for C10 at a concrete call: a child that printed "ok" and
exited 0 is reported as a runner-level failure when deletion raises. -/
theorem unlink_error_reported_as_runner_failure_witness :
    execute_code "print(\x22ok\x22)" 30
      ⟨none, none, RunOutcome.completed ⟨"ok\n", "", 0⟩,
        some "OSError: unlink"⟩ =
      ⟨"", "OSError: unlink", -1⟩ :=
  unlink_error_reported_as_runner_failure "print(\x22ok\x22)" 30
    ⟨none, none, RunOutcome.completed ⟨"ok\n", "", 0⟩,
      some "OSError: unlink"⟩
    ⟨"ok\n", "", 0⟩ "OSError: unlink" rfl rfl rfl rfl

end TermuxAI
